import Mathlib

/-!
Verification development for the Milk Digitalization application (`app.py`).

The file shallowly embeds the two core components of the program:

* the numeric-value parser `parse_numeric` and the identifier coercion
  `to_intlike` of the tabular ingestion layer, and
* the process-step derivation `_product_steps` of the Product page,
  together with the norms configuration (`default_norms` / `process_norms.json`).

Python strings are modelled as Lean `String` (a sequence of Unicode code
points, matching Python's string model); Python floats are modelled as `ℚ`
(every numeric literal appearing in the program and in the checked values is
exactly representable, and the decimal value of a literal is taken as the
float's value); `None`/absent values are modelled with `Option`; code that can
raise is modelled with `Except`.
-/

/-! ### Python string primitives

Each helper models the exact Python string operation used by `app.py`,
restricted to the alphabet the application works with (ASCII plus the basic
Cyrillic block used by the Russian/Kazakh product names). -/

/-- Python whitespace for `str.strip` (the characters stripped from the
application's ASCII/Cyrillic inputs). -/
def pyIsSpace (c : Char) : Bool :=
  c == ' ' || c == '\t' || c == '\n' || c == '\r' ||
  c.toNat == 0x0b || c.toNat == 0x0c

/-- Model of Python `str.strip()` (no argument): drop leading and trailing
whitespace. -/
def pyStrip (s : String) : String :=
  ⟨((s.data.dropWhile pyIsSpace).reverse.dropWhile pyIsSpace).reverse⟩

/-- Model of Python `str.lower()` on one character, covering ASCII `A`–`Z` and
the Cyrillic ranges U+0400–U+042F (which contain every uppercase letter that
occurs in the application's product names, including Kazakh `І` U+0406).
Characters outside these ranges are already lowercase in the program's data. -/
def pyLowerChar (c : Char) : Char :=
  if 'A' ≤ c ∧ c ≤ 'Z' then Char.ofNat (c.toNat + 32)
  else if 0x410 ≤ c.toNat ∧ c.toNat ≤ 0x42F then Char.ofNat (c.toNat + 0x20)
  else if 0x400 ≤ c.toNat ∧ c.toNat ≤ 0x40F then Char.ofNat (c.toNat + 0x50)
  else c

/-- Model of Python `str.lower()`. -/
def pyLower (s : String) : String := ⟨s.data.map pyLowerChar⟩

/-- Substring test on character lists: `needle` occurs contiguously in the
argument.  This is Python's `needle in hay` for strings. -/
def subOccurs (needle : List Char) : List Char → Bool
  | [] => needle.isEmpty
  | c :: rest => needle.isPrefixOf (c :: rest) || subOccurs needle rest

/-- Model of Python `needle in hay` for strings. -/
def pyIn (needle hay : String) : Bool := subOccurs needle.data hay.data

/-- Fuel-driven worker for `pyReplace`: replaces non-overlapping occurrences
of `needle` left to right, exactly as Python `str.replace` does.  The fuel is
the length of the string, an upper bound on the number of steps; every call
site uses a non-empty needle. -/
def replaceAux (needle repl : List Char) : Nat → List Char → List Char
  | 0, s => s
  | Nat.succ n, s =>
    match s with
    | [] => []
    | c :: rest =>
      if !needle.isEmpty && needle.isPrefixOf (c :: rest) then
        repl ++ replaceAux needle repl n ((c :: rest).drop needle.length)
      else
        c :: replaceAux needle repl n rest

/-- Model of Python `s.replace(needle, repl)` (all occurrences, left to
right, non-overlapping). -/
def pyReplace (s needle repl : String) : String :=
  ⟨replaceAux needle.data repl.data s.data.length s.data⟩

/-! ### The float builtin

`app.py` calls Python's `float()` only on strings drawn from the alphabet
`0-9 . - + e E` (the characters its cleaning loop keeps), so the model
implements exactly the float-literal grammar over that alphabet:
`sign? (digits ['.' digits*] | '.' digits+) [('e'|'E') sign? digits+]`,
with the whole string consumed.  The value is returned as the exact rational
denoted by the literal. -/

/-- Numeric value of a (most-significant-first) digit list. -/
def digitsVal (l : List Char) : ℕ :=
  l.foldl (fun a c => a * 10 + (c.toNat - 48)) 0

/-- Optional leading sign. -/
def readSign : List Char → ℤ × List Char
  | '+' :: t => (1, t)
  | '-' :: t => (-1, t)
  | l => (1, l)

/-- Ten to an integer power, as a rational. -/
def qpow10 (e : ℤ) : ℚ :=
  if 0 ≤ e then (10 : ℚ) ^ e.toNat else 1 / (10 : ℚ) ^ (-e).toNat

/-- Exponent part after the `e`/`E` marker: optional sign then at least one
digit, consuming the whole rest. -/
def readExp (l : List Char) : Option ℤ :=
  let p := readSign l
  let ds := p.2.takeWhile Char.isDigit
  let rest := p.2.dropWhile Char.isDigit
  if ds.isEmpty || !rest.isEmpty then none
  else some (p.1 * (digitsVal ds : ℤ))

/-- Assemble the value once integer digits `ip`, fraction digits `fp` and the
remaining input (possible exponent) are known. -/
def floatTail (sgn : ℤ) (ip fp : List Char) : List Char → Option ℚ
  | [] => some ((sgn : ℚ) * ((digitsVal ip : ℚ) + (digitsVal fp : ℚ) / (10 : ℚ) ^ fp.length))
  | 'e' :: r =>
    (readExp r).map fun e =>
      (sgn : ℚ) * ((digitsVal ip : ℚ) + (digitsVal fp : ℚ) / (10 : ℚ) ^ fp.length) * qpow10 e
  | 'E' :: r =>
    (readExp r).map fun e =>
      (sgn : ℚ) * ((digitsVal ip : ℚ) + (digitsVal fp : ℚ) / (10 : ℚ) ^ fp.length) * qpow10 e
  | _ => none

/-- Model of Python `float(s)` on the cleaned alphabet: `some` value on a
valid float literal, `none` where `float` raises `ValueError`. -/
def pyFloat (s : String) : Option ℚ :=
  let p := readSign s.data
  let ip := p.2.takeWhile Char.isDigit
  let l2 := p.2.dropWhile Char.isDigit
  match l2 with
  | '.' :: r =>
    let fp := r.takeWhile Char.isDigit
    let l3 := r.dropWhile Char.isDigit
    if ip.isEmpty && fp.isEmpty then none else floatTail p.1 ip fp l3
  | _ => if ip.isEmpty then none else floatTail p.1 ip [] l2

/-! ### `parse_numeric` (app.py lines 65–88) -/

/-- A value reaching `parse_numeric`: a missing value (`NaN`/`None`, for which
`pd.isna` is true), an already-numeric value, or a raw string. -/
inductive PyVal where
  | vnan : PyVal
  | num (q : ℚ) : PyVal
  | vstr (s : String) : PyVal
deriving DecidableEq

/-- Characters kept by the cleaning loop of `parse_numeric`:
`ch.isdigit() or ch in '.-+eE'`.  (`isdigit` is modelled on ASCII digits,
the only digits occurring in the application's data.) -/
def numChar (c : Char) : Bool :=
  c.isDigit || c == '.' || c == '-' || c == '+' || c == 'e' || c == 'E'

/-- The early-exit guard of `parse_numeric` on the stripped string:
`s == "" or "не обнаруж" in s.lower()`. -/
def pnGuard (s : String) : Bool :=
  s == "" || pyIn "не обнаруж" (pyLower s)

/-- The normalization pipeline of `parse_numeric` applied to the stripped
string: space and comma handling, the `×10^`/`x10^`/`×10`/`x10`/`×`
replacements, the `±` truncation, then the left-to-right scan keeping only a
leading run of numeric-literal characters. -/
def pnClean (s : String) : String :=
  let s1 := pyReplace (pyReplace s " " "") "," "."
  let s2 := pyReplace (pyReplace s1 "×10^" "e") "x10^" "e"
  let s3 := pyReplace (pyReplace (pyReplace s2 "×10" "e") "x10" "e") "×" ""
  let s4 := if pyIn "±" s3 then ⟨s3.data.takeWhile (fun c => !(c == '±'))⟩ else s3
  ⟨s4.data.takeWhile numChar⟩

/-- Embedding of `parse_numeric` (app.py lines 65–88).  `none` models
`np.nan` (absent). -/
def parse_numeric : PyVal → Option ℚ
  | .vnan => none
  | .num q => some q
  | .vstr v =>
    if pnGuard (pyStrip v) then none
    else pyFloat (pnClean (pyStrip v))

/-- The `float(cleaned)` call with its exception made explicit: `.error`
models the `ValueError` that the `try`/`except` of `parse_numeric` catches. -/
def floatExc (s : String) : Except Unit ℚ :=
  match pyFloat s with
  | some q => Except.ok q
  | none => Except.error ()

/-- Exception-aware embedding of `parse_numeric`: the result is `.error` iff
an exception would escape the function.  The `try`/`except` around
`float(cleaned)` turns a parse failure into `np.nan`, so every branch is an
`.ok`. -/
def parse_numeric_exc : PyVal → Except Unit (Option ℚ)
  | .vnan => Except.ok none
  | .num q => Except.ok (some q)
  | .vstr v =>
    if pnGuard (pyStrip v) then Except.ok none
    else
      match floatExc (pnClean (pyStrip v)) with
      | Except.ok q => Except.ok (some q)
      | Except.error _ => Except.ok none

/-! ### Identifier coercion `to_intlike` (app.py lines 201–210)

`to_intlike(df, col)` runs `pd.to_numeric(df[col], errors='coerce')` followed
by `.astype("Int64")` on the named column.  A column cell is modelled by
`Cell`; `pd.to_numeric` with `errors='coerce'` turns each cell into a numeric
value or `NaN` (`Option ℚ`, `none` = `NaN`); `astype("Int64")` converts
`NaN` to the pandas missing marker `<NA>` and numeric values to 64-bit
integers, raising (pandas' "cannot safely cast non-equivalent" error) when a
value is not exactly representable as a 64-bit integer. -/

/-- A cell of a loaded table column: missing (`NaN`/`<NA>`), an integer, a
float, or a raw string. -/
inductive Cell where
  | na : Cell
  | intv (n : ℤ) : Cell
  | floatv (q : ℚ) : Cell
  | strv (s : String) : Cell
deriving DecidableEq

/-- Model of `pd.to_numeric(·, errors='coerce')` on one cell: numbers pass
through, strings are parsed as numeric literals (stripped of surrounding
whitespace), anything unparseable or missing becomes `NaN` (`none`). -/
def to_numeric_cell : Cell → Option ℚ
  | .na => none
  | .intv n => some (n : ℚ)
  | .floatv q => some q
  | .strv s => pyFloat (pyStrip s)

/-- Smallest value of pandas' `Int64` dtype. -/
def int64min : ℤ := -(2 ^ 63)

/-- Largest value of pandas' `Int64` dtype. -/
def int64max : ℤ := 2 ^ 63 - 1

/-- Model of `.astype("Int64")` on one numeric-or-NaN value: `NaN` becomes
the missing marker `<NA>`; a numeric value must be exactly a 64-bit integer,
otherwise pandas raises a cast error (modelled by `.error`). -/
def astype_Int64_cell : Option ℚ → Except Unit Cell
  | none => Except.ok Cell.na
  | some q =>
    if q.den = 1 ∧ int64min ≤ q.num ∧ q.num ≤ int64max then Except.ok (Cell.intv q.num)
    else Except.error ()

/-- One cell of the `to_intlike` pipeline:
`pd.to_numeric(·, errors='coerce').astype("Int64")`. -/
def to_intlike_cell (c : Cell) : Except Unit Cell :=
  astype_Int64_cell (to_numeric_cell c)

/-- Embedding of `to_intlike` on a column (the column-wise pandas operations
applied cell by cell, an error in any cell raising out of the whole call). -/
def to_intlike : List Cell → Except Unit (List Cell)
  | [] => Except.ok []
  | c :: t =>
    match to_intlike_cell c with
    | Except.error e => Except.error e
    | Except.ok c' =>
      match to_intlike t with
      | Except.error e => Except.error e
      | Except.ok t' => Except.ok (c' :: t')

/-! ### Norms configuration (app.py lines 225–236)

`default_norms` is the built-in mapping; `norms` is the parsed content of
`process_norms.json` when the file exists and parses, and `default_norms`
otherwise.  A norm's `note` is optional because several step-literal norms
omit it. -/

/-- A quality/safety norm: numeric range, unit, optional note. -/
structure QNorm where
  min : ℚ
  max : ℚ
  unit : String
  note : Option String
deriving DecidableEq

/-- The built-in `default_norms` mapping (app.py lines 225–229). -/
def default_norms : List (String × QNorm) :=
  [("Пастеризация", ⟨72, 75, "°C", some "Типовая пастеризация (72–75°C) — см. протокол."⟩),
   ("Охлаждение", ⟨2, 6, "°C", some "Хранение/охлаждение."⟩),
   ("Ферментация", ⟨18, 42, "°C", some "Температуры ферментации — зависят от рецептуры."⟩)]

/-- The `norms` mapping in effect (app.py lines 230–236): the external
configuration when `process_norms.json` exists and parses (`some ext`),
otherwise `default_norms`. -/
def resolveNorms (ext : Option (List (String × QNorm))) : List (String × QNorm) :=
  ext.getD default_norms

/-- Lookup of a process name in a norms mapping. -/
def lookupNorm (m : List (String × QNorm)) (k : String) : Option QNorm :=
  (m.find? (fun p0 => p0.1 == k)).map (fun p0 => p0.2)

/-! ### Process step derivation `_product_steps` (app.py lines 469–553) -/

/-- A derived process step: the 5-tuple produced by `_stage(id, label, icon,
desc, norm)`; `norm = none` models the empty dict `{}`. -/
structure Stage where
  id : String
  label : String
  icon : String
  desc : String
  norm : Option QNorm
deriving DecidableEq

/-- Product attributes consumed by `_product_steps`: the `name` and `source`
strings of the product record. -/
structure ProductAttrs where
  name : String
  source : String
deriving DecidableEq

/-- The trimmed lower-cased name: `nlow = str(prod.get('name','')).strip().lower()`. -/
def nlowOf (p : ProductAttrs) : String := pyLower (pyStrip p.name)

/-- The trimmed lower-cased source: `slow = str(prod.get('source','')).strip().lower()`. -/
def slowOf (p : ProductAttrs) : String := pyLower (pyStrip p.source)

/-- `is_ayran = "айран" in nlow` — the fermented-drink archetype. -/
def is_ayran (p : ProductAttrs) : Bool := pyIn "айран" (nlowOf p)

/-- `is_cheese = ("ірімшік" in nlow) or ("сыр" in nlow)` — the cheese archetype. -/
def is_cheese (p : ProductAttrs) : Bool :=
  pyIn "ірімшік" (nlowOf p) || pyIn "сыр" (nlowOf p)

/-- `is_milk = "молоко" in nlow` — the milk archetype. -/
def is_milk (p : ProductAttrs) : Bool := pyIn "молоко" (nlowOf p)

/-- The goat-sourcing flag `goat` (app.py lines 492–495): any of the four
localized synonyms occurring in the lower-cased name or source. -/
def isGoat (p : ProductAttrs) : Bool :=
  pyIn "козье" (nlowOf p) || pyIn "козий" (nlowOf p) ||
  pyIn "goat" (nlowOf p) || pyIn "ешкі" (nlowOf p) ||
  pyIn "козье" (slowOf p) || pyIn "козий" (slowOf p) ||
  pyIn "goat" (slowOf p) || pyIn "ешкі" (slowOf p)

/-- `need_homogenization = is_ayran or (is_milk and not goat) or (is_cheese and not goat)`. -/
def need_homogenization (p : ProductAttrs) : Bool :=
  is_ayran p || (is_milk p && !isGoat p) || (is_cheese p && !isGoat p)

/-- The common prefix of every step list (app.py lines 497–505). -/
def commonStages : List Stage :=
  [⟨"accept", "Приёмка сырья", "📥",
    "Осмотр тары, органолептика, экспресс-анализ состава/обсеменённости.", none⟩,
   ⟨"clarify", "Очистка и сортировка (4–6 °C)", "🧽",
    "Фильтрация/сепараторы. Оценка чистоты, кислотности (°Т), определение сорта.",
    some ⟨4, 6, "°C", some "Охлаждение до 4–6 °C замедляет рост бактерий"⟩⟩,
   ⟨"normalization", "Нормализация состава", "⚖️",
    "Приведение к нормам по жирности/белку/витаминам/минералам.", none⟩]

/-- The conditional homogenization step (app.py lines 509–511). -/
def homogenizationStage : Stage :=
  ⟨"homogenization", "Гомогенизация", "🌀",
   "Дробление жировых шариков → однородность, отсутствие отстоя.", none⟩

/-- The unconditional pasteurization step with its literal norm
(app.py lines 514–518). -/
def pasteurizationStage : Stage :=
  ⟨"pasteurization", "Пастеризация (65–69 °C)", "🔥",
   "Термообработка для снижения микрофлоры.",
   some ⟨65, 69, "°C", some "Пастеризация согласно рецептуре/ГОСТ"⟩⟩

/-- Fermented-drink tail (app.py lines 521–533). -/
def ayranTail : List Stage :=
  [⟨"cool_to_inoc", "Охлаждение до заквашивания (35–45 °C)", "🌡️",
    "Перед внесением закваски.", some ⟨35, 45, "°C", none⟩⟩,
   ⟨"inoculation", "Внесение закваски", "🧫",
    "Культуры: стрептококк, болгарская палочка, дрожжи.", none⟩,
   ⟨"fermentation", "Сквашивание (20–25 °C)", "⏱️",
    "Выдержка при заданной температуре.", some ⟨20, 25, "°C", none⟩⟩,
   ⟨"salt", "Добавление соли (1.5–2%)", "🧂", "Перемешать до однородности.", none⟩,
   ⟨"mix_water", "Смешивание с водой / газирование", "💧",
    "Смешивание с кипячёной водой, газирование.", none⟩,
   ⟨"mature", "Созревание в бутылках (хол.)", "🥶", "Холодильное созревание.", none⟩,
   ⟨"label", "Розлив/упаковка/маркировка", "📦", "Готовый продукт.", none⟩]

/-- Cheese tail (app.py lines 534–544). -/
def cheeseTail : List Stage :=
  [⟨"prep_cheese", "Подготовка к выработке", "🧰", "Коррекция состава/кальций/закваски.", none⟩,
   ⟨"rennet", "Сычужное свертывание", "🧀", "Внесение фермента → образование сгустка.", none⟩,
   ⟨"curd", "Обработка сгустка", "🔪", "Резка/нагрев/перемешивание → выделение сыворотки.", none⟩,
   ⟨"form", "Формование", "🧱", "Выкладка в формы.", none⟩,
   ⟨"press", "Самопрессование/прессование", "🗜️", "Осушка и уплотнение структуры.", none⟩,
   ⟨"salt_dry", "Посолка/обсушка", "🧂", "Рассол/сухая посолка; обсушка 2–3 суток (10–12 °C).", none⟩,
   ⟨"ripen", "Созревание", "⏳", "Камеры с контролем T/влажности.", none⟩,
   ⟨"label", "Упаковка/хранение/реализация", "📦", "Контроль качества и выпуск.", none⟩]

/-- Milk (default) tail (app.py lines 545–551). -/
def milkTail : List Stage :=
  [⟨"cooling", "Охлаждение (2–6 °C)", "❄️", "Быстрое охлаждение после пастеризации.",
    some ⟨2, 6, "°C", none⟩⟩,
   ⟨"steril", "Стерилизация / UHT", "🧪", "Безопасность и длительный срок хранения.", none⟩,
   ⟨"label", "Розлив/упаковка/маркировка", "📦", "Готовый продукт.", none⟩]

/-- Embedding of `_product_steps` (app.py lines 469–553): the common prefix,
the conditional homogenization step, the unconditional pasteurization step,
then the archetype tail chosen by `if is_ayran ... elif is_cheese ... else`. -/
def product_steps (p : ProductAttrs) : List Stage :=
  (commonStages ++
    (if need_homogenization p then [homogenizationStage] else []) ++
    [pasteurizationStage]) ++
  (if is_ayran p then ayranTail else if is_cheese p then cheeseTail else milkTail)

/-- The step identifiers of a derived step list, in order. -/
def stepIds (p : ProductAttrs) : List String :=
  (product_steps p).map Stage.id

/-- The identifiers strictly after the pasteurization step. -/
def idsAfterPast (l : List String) : List String :=
  (l.dropWhile (fun s => !(s == "pasteurization"))).drop 1

/-! ## Helper lemmas -/

/-- Shape of the derived identifier list: the fixed common prefix, the
conditional homogenization id, the pasteurization id, and the archetype
tail. -/
lemma stepIds_spec (p : ProductAttrs) : stepIds p =
    ["accept", "clarify", "normalization"] ++
    (if need_homogenization p then ["homogenization"] else []) ++
    ["pasteurization"] ++
    (if is_ayran p then ayranTail.map Stage.id
     else if is_cheese p then cheeseTail.map Stage.id
     else milkTail.map Stage.id) := by
  unfold stepIds product_steps
  cases hh : need_homogenization p <;> cases ha : is_ayran p <;> cases hc : is_cheese p <;>
    simp [hh, ha, hc, commonStages, ayranTail, cheeseTail, milkTail,
      homogenizationStage, pasteurizationStage]

/-- A cell that survived one `to_intlike` pass survives a second one
unchanged: the output cells are `na` or in-range integers, and both are fixed
points of the coercion. -/
lemma to_intlike_cell_idem {c c' : Cell} (h : to_intlike_cell c = Except.ok c') :
    to_intlike_cell c' = Except.ok c' := by
  cases hq : to_numeric_cell c with
  | none =>
    simp [to_intlike_cell, astype_Int64_cell, hq] at h
    rw [← h]
    rfl
  | some q =>
    by_cases hcond : q.den = 1 ∧ int64min ≤ q.num ∧ q.num ≤ int64max
    · simp [to_intlike_cell, astype_Int64_cell, hq, hcond.1, hcond.2.1, hcond.2.2] at h
      rw [← h]
      simp [to_intlike_cell, to_numeric_cell, astype_Int64_cell,
        Rat.den_intCast, Rat.num_intCast, hcond.2.1, hcond.2.2]
    · simp [to_intlike_cell, astype_Int64_cell, hq, hcond] at h

/-! ## Claim theorems -/

/-- Claim C1: for every product attribute pair `(name, source)`, the derived
step list contains the homogenization step if and only if the product
classifies as fermented-drink, or as milk and not goat-sourced, or as cheese
and not goat-sourced, with the archetype and goat flags computed by
case-insensitive substring matching over the trimmed lower-cased name and
source. -/
theorem homogenization_mem_iff_rule (name source : String) :
    "homogenization" ∈ stepIds ⟨name, source⟩ ↔
      (is_ayran ⟨name, source⟩ ||
       (is_milk ⟨name, source⟩ && !isGoat ⟨name, source⟩) ||
       (is_cheese ⟨name, source⟩ && !isGoat ⟨name, source⟩)) = true := by
  have hnh : need_homogenization ⟨name, source⟩ =
      (is_ayran ⟨name, source⟩ ||
       (is_milk ⟨name, source⟩ && !isGoat ⟨name, source⟩) ||
       (is_cheese ⟨name, source⟩ && !isGoat ⟨name, source⟩)) := rfl
  rw [← hnh, stepIds_spec]
  cases hh : need_homogenization ⟨name, source⟩ <;>
    cases ha : is_ayran ⟨name, source⟩ <;> cases hc : is_cheese ⟨name, source⟩ <;>
      simp [ha, hc] <;> decide

section
attribute [local semireducible] Rat.mul Rat.inv Rat.add Rat.sub

/-- Claim C2: `parse_numeric` returns 1.5 on `"1,5"`, 12300.0 on `"12 300"`,
1200000.0 on `"1.2×10^6"`, 5.0 on `"5.0±0.2"`, absent on `"abc"`, and 42.0 on
the numeric input 42. -/
theorem parse_numeric_examples :
    parse_numeric (.vstr "1,5") = some (3 / 2 : ℚ) ∧
    parse_numeric (.vstr "12 300") = some (12300 : ℚ) ∧
    parse_numeric (.vstr "1.2×10^6") = some (1200000 : ℚ) ∧
    parse_numeric (.vstr "5.0±0.2") = some (5 : ℚ) ∧
    parse_numeric (.vstr "abc") = none ∧
    parse_numeric (.num 42) = some (42 : ℚ) := by
  decide

/-- Claim C3, counterexample: the claim says an input of the form `"2×10"`
(mantissa followed by `×10` with no explicit exponent) parses to a numeric
value rather than coming out absent; in fact `parse_numeric` returns absent
on `"2×10"`. -/
theorem parse_numeric_x10_bare_absent : parse_numeric (.vstr "2×10") = none := by
  decide

/-- Claim C3, amended: the `×10^`/`x10^` idioms with an explicit exponent are
normalized to `e` and parse numerically (`"2×10^3"` gives 2000), but a bare
trailing `×10` is normalized to a trailing `e` with no exponent digits
(`"2×10"` cleans to `"2e"`), which is not a valid float literal, so such
inputs come out absent. -/
theorem parse_numeric_x10_normalization :
    parse_numeric (.vstr "2×10^3") = some (2000 : ℚ) ∧
    pnClean (pyStrip "2×10") = "2e" ∧
    pyFloat "2e" = none ∧
    parse_numeric (.vstr "2×10") = none := by
  decide

/-- Claim C4, counterexample: with a norms configuration that supplies an
override for the process name `"Пастеризация"`, the derived pasteurization
step still carries the literal 65–69 °C norm bundled at step construction,
not the supplied override (the `norms` mapping is never consulted by
`_product_steps`). -/
theorem pasteurization_norm_ignores_override :
    lookupNorm (resolveNorms (some [("Пастеризация", ⟨100, 101, "°C", some "override"⟩)]))
        "Пастеризация" = some ⟨100, 101, "°C", some "override"⟩ ∧
    ((product_steps ⟨"Молоко (коровье)", "коровье"⟩).filter
        (fun st => st.id == "pasteurization")).map Stage.norm
      ≠ [some ⟨100, 101, "°C", some "override"⟩] := by
  constructor
  · decide
  · decide
end

/-- Claim C4, amended: for every product attribute pair, the derived
pasteurization step carries the literal norm `{min 65, max 69, °C}` bundled
at step construction; neither the externally configured override for
`"Пастеризация"` nor the built-in `default_norms` entry (72–75 °C) is
consulted by step derivation. -/
theorem pasteurization_norm_literal (name source : String) :
    ((product_steps ⟨name, source⟩).filter (fun st => st.id == "pasteurization")).map Stage.norm
      = [some ⟨65, 69, "°C", some "Пастеризация согласно рецептуре/ГОСТ"⟩] := by
  unfold product_steps
  cases hh : need_homogenization ⟨name, source⟩ <;>
    cases ha : is_ayran ⟨name, source⟩ <;> cases hc : is_cheese ⟨name, source⟩ <;>
      simp [hh, ha, hc, commonStages, ayranTail, cheeseTail, milkTail,
        homogenizationStage, pasteurizationStage]

/-- Claim C5: for every product attribute pair `(name, source)`, the derived
step list is non-empty, its first step is intake/acceptance (step id
`"accept"`), and it contains exactly one pasteurization step. -/
theorem steps_nonempty_accept_first_one_pasteurization (name source : String) :
    stepIds ⟨name, source⟩ ≠ [] ∧
    (stepIds ⟨name, source⟩).head? = some "accept" ∧
    (stepIds ⟨name, source⟩).count "pasteurization" = 1 := by
  rw [stepIds_spec]
  cases hh : need_homogenization ⟨name, source⟩ <;>
    cases ha : is_ayran ⟨name, source⟩ <;> cases hc : is_cheese ⟨name, source⟩ <;>
      simp [ha, hc] <;> decide

/-- Claim C6: for the product `{name: "Молоко (козье)", source: "козье"}`,
the derived step identifiers are exactly, in order: intake/acceptance
(`accept`), clarification (`clarify`), normalization, pasteurization,
cooling, sterilization (`steril`), packaging (`label`) — with no
homogenization step. -/
theorem goat_milk_step_ids :
    stepIds ⟨"Молоко (козье)", "козье"⟩ =
      ["accept", "clarify", "normalization", "pasteurization", "cooling", "steril", "label"] := by
  decide

section
attribute [local semireducible] Rat.mul Rat.inv Rat.add Rat.sub

/-- Claim C7, counterexample: the claim says identifier coercion never raises
on any cell value; in fact a cell that parses as a non-integral number, such
as the string `"1.5"`, makes the `astype("Int64")` cast raise (pandas'
"cannot safely cast non-equivalent" error) rather than be absorbed. -/
theorem to_intlike_raises_on_nonintegral :
    to_intlike [Cell.strv "1.5"] = Except.error () := rfl
end

/-- Claim C7, amended: identifier coercion keeps every value that parses as a
64-bit integer, and turns every unparseable or missing value into the
explicit no-value marker (never zero and never an exception); but a value
that parses as a non-integral number raises a cast error instead of being
absorbed. -/
theorem to_intlike_cell_spec (c : Cell) :
    (to_numeric_cell c = none → to_intlike_cell c = Except.ok Cell.na) ∧
    (∀ n : ℤ, to_numeric_cell c = some (n : ℚ) → int64min ≤ n → n ≤ int64max →
      to_intlike_cell c = Except.ok (Cell.intv n)) ∧
    (∀ q : ℚ, to_numeric_cell c = some q → q.den ≠ 1 →
      to_intlike_cell c = Except.error ()) := by
  refine ⟨fun h => ?_, fun n h hlo hhi => ?_, fun q h hden => ?_⟩
  · simp [to_intlike_cell, h, astype_Int64_cell]
  · simp [to_intlike_cell, h, astype_Int64_cell, Rat.den_intCast, Rat.num_intCast, hlo, hhi]
  · simp [to_intlike_cell, h, astype_Int64_cell, hden]

section
attribute [local semireducible] Rat.mul Rat.inv Rat.add Rat.sub

/-- Witness for claim C7's amended theorem at the concrete cell `"17"`: the
value parses as the integer 17 and the coercion keeps it. -/
theorem to_intlike_cell_spec_witness :
    to_numeric_cell (Cell.strv "17") = some ((17 : ℤ) : ℚ) ∧
    to_intlike_cell (Cell.strv "17") = Except.ok (Cell.intv 17) :=
  ⟨by decide, (to_intlike_cell_spec (Cell.strv "17")).2.1 17 (by decide) (by decide) (by decide)⟩
end

/-- Claim C8: `parse_numeric` is total: on every input (every string
included) the exception-aware embedding returns normally, with either a float
or the absent marker — the value of `parse_numeric` — and never propagates an
exception. -/
theorem parse_numeric_total (v : PyVal) :
    parse_numeric_exc v = Except.ok (parse_numeric v) := by
  cases v with
  | vnan => rfl
  | num q => rfl
  | vstr s =>
    unfold parse_numeric_exc parse_numeric
    cases hg : pnGuard (pyStrip s) <;> simp [hg, floatExc] <;>
      cases hf : pyFloat (pnClean (pyStrip s)) <;> simp [hf]

/-- Claim C9: identifier coercion is idempotent: coercing a column and then
coercing the result again gives the same outcome (values and no-value
markers) as coercing it once. -/
theorem to_intlike_idempotent (col : List Cell) :
    (to_intlike col).bind to_intlike = to_intlike col := by
  induction col with
  | nil => rfl
  | cons c t ih =>
    unfold to_intlike
    cases hc : to_intlike_cell c with
    | error e => rfl
    | ok c' =>
      cases ht : to_intlike t with
      | error e => rfl
      | ok t' =>
        have ht' : to_intlike t' = Except.ok t' := by
          have h2 := ih
          rw [ht] at h2
          simpa [Except.bind] using h2
        simp only [Except.bind]
        unfold to_intlike
        rw [to_intlike_cell_idem hc, ht']

/-- Claim C10: archetype matching is resolved by fixed priority, not mutual
exclusion: a name matching the fermented-drink marker gets the
fermented-drink tail regardless of other markers; otherwise a name matching a
cheese marker gets the cheese tail even if it also matches milk; and every
remaining name gets the milk tail, whether or not it contains a milk
marker. -/
theorem archetype_priority (name source : String) :
    (is_ayran ⟨name, source⟩ = true →
      idsAfterPast (stepIds ⟨name, source⟩) = ayranTail.map Stage.id) ∧
    (is_ayran ⟨name, source⟩ = false → is_cheese ⟨name, source⟩ = true →
      idsAfterPast (stepIds ⟨name, source⟩) = cheeseTail.map Stage.id) ∧
    (is_ayran ⟨name, source⟩ = false → is_cheese ⟨name, source⟩ = false →
      idsAfterPast (stepIds ⟨name, source⟩) = milkTail.map Stage.id) := by
  rw [stepIds_spec]
  cases hh : need_homogenization ⟨name, source⟩ <;>
    cases ha : is_ayran ⟨name, source⟩ <;> cases hc : is_cheese ⟨name, source⟩ <;>
      simp [ha, hc] <;> decide

/-- Witness for claim C10 at concrete products: a name with all three markers
gets the fermented-drink tail, a name with cheese and milk markers gets the
cheese tail, and a name with no marker at all still gets the milk tail. -/
theorem archetype_priority_witness :
    idsAfterPast (stepIds ⟨"айран сыр молоко", "козье"⟩) = ayranTail.map Stage.id ∧
    idsAfterPast (stepIds ⟨"сыр молоко", "козье"⟩) = cheeseTail.map Stage.id ∧
    idsAfterPast (stepIds ⟨"щербет", "козье"⟩) = milkTail.map Stage.id :=
  ⟨(archetype_priority "айран сыр молоко" "козье").1 (by decide),
   (archetype_priority "сыр молоко" "козье").2.1 (by decide) (by decide),
   (archetype_priority "щербет" "козье").2.2 (by decide) (by decide)⟩
